import Mathlib

/-!
Shallow embedding of the MovieCatalog data-access layer (`src/crud.py`,
`src/models.py`, the review route of `src/main.py`) and proofs about it.

The store models the PostgreSQL database (`src/database.py`): one list per
table in insertion (rowid) order, the `movie_genre_association` join table
as a list of (movie_id, genre_id) pairs, and one autoincrement counter per
table.  SQLAlchemy's `Column.ilike(pat)` compiles to
`lower(column) LIKE lower(pat)`: the argument is a LIKE *pattern*, where
`%` matches any sequence of characters, `_` any single character, and
backslash — PostgreSQL's default escape character — makes the following
pattern character literal.
`Query.first()` returns the first row in table order; `Query.all()` the
rows in table order.
-/

namespace MovieCatalog

/-- ASCII lower-casing of one character, modelling SQL `lower()` as applied
by `ilike` on the ASCII names this application stores. -/
def lowerChar (c : Char) : Char :=
  match c with
  | 'A' => 'a' | 'B' => 'b' | 'C' => 'c' | 'D' => 'd' | 'E' => 'e'
  | 'F' => 'f' | 'G' => 'g' | 'H' => 'h' | 'I' => 'i' | 'J' => 'j'
  | 'K' => 'k' | 'L' => 'l' | 'M' => 'm' | 'N' => 'n' | 'O' => 'o'
  | 'P' => 'p' | 'Q' => 'q' | 'R' => 'r' | 'S' => 's' | 'T' => 't'
  | 'U' => 'u' | 'V' => 'v' | 'W' => 'w' | 'X' => 'x' | 'Y' => 'y'
  | 'Z' => 'z' | c => c

/-- SQL `lower()` on a string, as a character list. -/
def sqlLower (s : String) : List Char := s.data.map lowerChar

/-- ASCII whitespace, as recognised by Python's `str.strip()` on the
inputs this application handles. -/
def isSpace (c : Char) : Bool :=
  c = ' ' || c = '\t' || c = '\n' || c = '\r' || c = '\x0b' || c = '\x0c'

/-- Python `str.strip()`: drop leading and trailing whitespace. -/
def pyStrip (s : String) : String :=
  ⟨((s.data.dropWhile isSpace).reverse.dropWhile isSpace).reverse⟩

/-- SQL LIKE pattern matching as PostgreSQL implements it: first argument
the subject, second the pattern; `%` matches any sequence, `_` any single
character, and backslash — the default escape character — makes the next
pattern character literal.  A pattern ending in a lone escape character is
an error in PostgreSQL ("LIKE pattern must not end with escape
character"); the embedding maps that failing query to a non-match, and
every theorem that needs a pattern to match some row assumes the pattern
is backslash-free, staying clear of that corner. -/
def likeM (s : List Char) : List Char → Bool
  | [] => s.isEmpty
  | pc :: p =>
    if pc = '\\' then
      match p, s with
      | [], _ => false
      | _ :: _, [] => false
      | ec :: p', c :: s' => (c = ec) && likeM s' p'
    else if pc = '%' then s.tails.any (fun t => likeM t p)
    else
      match s with
      | [] => false
      | c :: s' => (pc = '_' || c = pc) && likeM s' p

/-- SQLAlchemy `column.ilike(pat)`: case-insensitive LIKE. -/
def sqlIlike (s pat : String) : Bool := likeM (sqlLower s) (sqlLower pat)

/-- Row of the `directors` table (`src/models.py`, class `Director`). -/
structure Director where
  id : Nat
  name : String
  birth_date : Option String
deriving Repr, DecidableEq

/-- Row of the `genres` table (`src/models.py`, class `Genre`). -/
structure Genre where
  id : Nat
  name : String
deriving Repr, DecidableEq

/-- Row of the `movies` table (`src/models.py`, class `Movie`).  The
many-to-many genre link lives in the association table of the store. -/
structure Movie where
  id : Nat
  title : String
  year : Int
  description : Option String
  image_url : Option String
  director_id : Nat
deriving Repr, DecidableEq

/-- Row of the `reviews` table (`src/models.py`, class `Review`). -/
structure Review where
  id : Nat
  user_name : String
  rating : Int
  comment : String
  movie_id : Nat
deriving Repr, DecidableEq

/-- The database state: one list per table in insertion order, the
`movie_genre_association` join table, and the autoincrement counters. -/
structure Store where
  directors : List Director
  genres : List Genre
  movies : List Movie
  reviews : List Review
  movieGenres : List (Nat × Nat)
  nextDirectorId : Nat
  nextGenreId : Nat
  nextMovieId : Nat
  nextReviewId : Nat
deriving Repr, DecidableEq

/-- A freshly created database. -/
def emptyStore : Store :=
  ⟨[], [], [], [], [], 1, 1, 1, 1⟩

/-- `crud.get_director_by_id`: first Director with the given id. -/
def get_director_by_id (s : Store) (director_id : Nat) : Option Director :=
  s.directors.find? (fun d => d.id == director_id)

/-- `crud.get_director_by_name`: first Director whose name matches the
input under `ilike` (the input is used as a case-insensitive LIKE
pattern). -/
def get_director_by_name (s : Store) (name : String) : Option Director :=
  s.directors.find? (fun d => sqlIlike d.name name)

/-- `crud.get_or_create_director_by_name`: trim, look up case-insensitively,
create-and-commit a new Director when absent. -/
def get_or_create_director_by_name (s : Store) (name : String) :
    Director × Store :=
  let clean_name := pyStrip name
  match get_director_by_name s clean_name with
  | some d => (d, s)
  | none =>
    let d : Director := ⟨s.nextDirectorId, clean_name, none⟩
    (d, { s with directors := s.directors ++ [d],
                 nextDirectorId := s.nextDirectorId + 1 })

/-- `crud.get_genres_by_ids`: all Genres whose id is in the list, in table
order. -/
def get_genres_by_ids (s : Store) (genre_ids : List Nat) : List Genre :=
  if genre_ids.isEmpty then []
  else s.genres.filter (fun g => genre_ids.contains g.id)

/-- `crud.get_or_create_genres_by_names`: for each name, trim, skip if
empty, otherwise look up case-insensitively and create-and-commit when
absent; returns the resolved Genres in input order. -/
def get_or_create_genres_by_names (s : Store) (names : List String) :
    List Genre × Store :=
  match names with
  | [] => ([], s)
  | name :: rest =>
    let clean := pyStrip name
    if clean.data.isEmpty then
      get_or_create_genres_by_names s rest
    else
      match s.genres.find? (fun g => sqlIlike g.name clean) with
      | some g =>
        let p := get_or_create_genres_by_names s rest
        (g :: p.1, p.2)
      | none =>
        let g : Genre := ⟨s.nextGenreId, clean⟩
        let s1 : Store := { s with genres := s.genres ++ [g],
                                   nextGenreId := s.nextGenreId + 1 }
        let p := get_or_create_genres_by_names s1 rest
        (g :: p.1, p.2)

/-- `crud.get_movies`. -/
def get_movies (s : Store) : List Movie := s.movies

/-- `crud.get_movie`: first Movie with the given id. -/
def get_movie (s : Store) (movie_id : Nat) : Option Movie :=
  s.movies.find? (fun m => m.id == movie_id)

/-- `crud.create_movie`: raises `ValueError("Director not found")` when the
director id does not resolve (modelled as `Except.error`, with the store
returned unchanged since the exception is raised before any write);
otherwise resolves the genre ids, inserts the Movie row and its genre
association rows, and commits. -/
def create_movie (s : Store) (title : String) (year : Int)
    (description : Option String) (director_id : Nat) (genre_ids : List Nat)
    (image_url : Option String) : Except String Movie × Store :=
  match get_director_by_id s director_id with
  | none => (.error "Director not found", s)
  | some _ =>
    let genres := get_genres_by_ids s genre_ids
    let movie : Movie :=
      ⟨s.nextMovieId, title, year, description, image_url, director_id⟩
    (.ok movie,
      { s with movies := s.movies ++ [movie],
               movieGenres :=
                 s.movieGenres ++ genres.map (fun g => (movie.id, g.id)),
               nextMovieId := s.nextMovieId + 1 })

/-- `crud.update_movie`: returns `none` (no error) when the movie id is
unknown; raises `ValueError("Director not found")` when the director id
does not resolve, before any field is written; otherwise overwrites every
field and replaces the genre association rows of the movie. -/
def update_movie (s : Store) (movie_id : Nat) (title : String) (year : Int)
    (description : Option String) (director_id : Nat) (genre_ids : List Nat)
    (image_url : Option String) : Except String (Option Movie) × Store :=
  match get_movie s movie_id with
  | none => (.ok none, s)
  | some _ =>
    match get_director_by_id s director_id with
    | none => (.error "Director not found", s)
    | some _ =>
      let genres := get_genres_by_ids s genre_ids
      let movie : Movie :=
        ⟨movie_id, title, year, description, image_url, director_id⟩
      (.ok (some movie),
        { s with
            movies := s.movies.map (fun m => if m.id == movie_id then movie else m),
            movieGenres :=
              s.movieGenres.filter (fun p => p.1 != movie_id)
                ++ genres.map (fun g => (movie_id, g.id)) })

/-- `crud.delete_movie`: false when the id is unknown; otherwise removes
the Movie row, its Review rows (ORM cascade `all, delete-orphan` on
`Movie.reviews`) and its genre association rows, and returns true. -/
def delete_movie (s : Store) (movie_id : Nat) : Bool × Store :=
  match get_movie s movie_id with
  | none => (false, s)
  | some _ =>
    (true,
      { s with movies := s.movies.filter (fun m => m.id != movie_id),
               reviews := s.reviews.filter (fun r => r.movie_id != movie_id),
               movieGenres := s.movieGenres.filter (fun p => p.1 != movie_id) })

/-- `crud.create_movie_with_names`: resolve-or-create the director and the
genres by name, then delegate to `create_movie`. -/
def create_movie_with_names (s : Store) (title : String) (year : Int)
    (description : Option String) (director_name : String)
    (genre_names : List String) (image_url : Option String) :
    Except String Movie × Store :=
  let dp := get_or_create_director_by_name s director_name
  let gp := get_or_create_genres_by_names dp.2 genre_names
  create_movie gp.2 title year description dp.1.id
    (gp.1.map (fun g => g.id)) image_url

/-- `main.add_review`: inserts a Review with `user_name="Anonymous"` and
commits, with no application-level existence check on `movie_id`.  The
commit is accepted only when the movie exists: `Review.movie_id` carries a
`ForeignKey("movies.id")` constraint (`src/models.py`) which the
PostgreSQL backend (`src/database.py`) enforces, so a commit against an
absent movie id fails with an integrity error (modelled as
`Except.error`) and persists nothing. -/
def add_review (s : Store) (movie_id : Nat) (rating : Int)
    (comment : String) : Except String Review × Store :=
  let review : Review :=
    ⟨s.nextReviewId, "Anonymous", rating, comment, movie_id⟩
  if s.movies.any (fun m => m.id == movie_id) then
    (.ok review,
      { s with reviews := s.reviews ++ [review],
               nextReviewId := s.nextReviewId + 1 })
  else
    (.error "insert or update on table reviews violates foreign key constraint", s)

/-- The genre ids associated to a movie id in the join table. -/
def movieGenreIds (s : Store) (movie_id : Nat) : List Nat :=
  (s.movieGenres.filter (fun p => p.1 == movie_id)).map (fun p => p.2)

/-- Well-formedness of a store: every row id is below its table's
autoincrement counter (which PostgreSQL sequences guarantee), and
association rows refer only to already-allocated movie ids. -/
def Store.WF (s : Store) : Prop :=
  (∀ d ∈ s.directors, d.id < s.nextDirectorId) ∧
  (∀ g ∈ s.genres, g.id < s.nextGenreId) ∧
  (∀ m ∈ s.movies, m.id < s.nextMovieId) ∧
  (∀ r ∈ s.reviews, r.id < s.nextReviewId) ∧
  (∀ p ∈ s.movieGenres, p.1 < s.nextMovieId)

instance (s : Store) : Decidable s.WF := by
  unfold Store.WF; infer_instance


/-! ### Lemmas about the LIKE matcher -/

theorem likeM_nil (s : List Char) : likeM s [] = s.isEmpty := rfl

theorem likeM_cons (s : List Char) (pc : Char) (p : List Char) :
    likeM s (pc :: p) =
      if pc = '\\' then
        match p, s with
        | [], _ => false
        | _ :: _, [] => false
        | ec :: p', c :: s' => (c = ec) && likeM s' p'
      else if pc = '%' then s.tails.any (fun t => likeM t p)
      else
        match s with
        | [] => false
        | c :: s' => (pc = '_' || c = pc) && likeM s' p := by
  rw [likeM.eq_def]

/-- A backslash-free string matches itself as a LIKE pattern. -/
theorem likeM_self_no_esc (l : List Char) (hbs : ∀ c ∈ l, c ≠ '\\') :
    likeM l l = true := by
  induction l with
  | nil => rfl
  | cons c l ih =>
    have hc : c ≠ '\\' := hbs c (by simp)
    have hl' : ∀ x ∈ l, x ≠ '\\' := fun x hx => hbs x (by simp [hx])
    by_cases hpc : c = '%'
    · subst hpc
      rw [likeM_cons, if_neg (by decide), if_pos rfl, List.any_eq_true]
      exact ⟨l, (List.mem_tails l ('%' :: l)).mpr (List.suffix_cons '%' l),
        ih hl'⟩
    · rw [likeM_cons, if_neg hc, if_neg hpc]
      simp [hpc, ih hl']

/-- A LIKE pattern free of wildcards and escapes matches exactly itself. -/
theorem likeM_exact (p : List Char) :
    ∀ s : List Char, (∀ c ∈ p, c ≠ '%' ∧ c ≠ '_' ∧ c ≠ '\\') →
      (likeM s p = true ↔ s = p) := by
  induction p with
  | nil => intro s _; cases s <;> simp [likeM_nil]
  | cons pc p ih =>
    intro s hp
    have hpc := hp pc (by simp)
    have hp' : ∀ c ∈ p, c ≠ '%' ∧ c ≠ '_' ∧ c ≠ '\\' :=
      fun c hc => hp c (by simp [hc])
    cases s with
    | nil =>
      rw [likeM_cons, if_neg hpc.2.2, if_neg hpc.1]
      simp
    | cons c s =>
      rw [likeM_cons, if_neg hpc.2.2, if_neg hpc.1]
      simp only [List.cons.injEq, Bool.and_eq_true, Bool.or_eq_true,
        decide_eq_true_eq]
      constructor
      · rintro ⟨h1 | h1, h2⟩
        · exact absurd h1 hpc.2.1
        · exact ⟨h1, (ih s hp').mp h2⟩
      · rintro ⟨rfl, rfl⟩
        exact ⟨Or.inr rfl, (ih s hp').mpr rfl⟩

theorem lowerChar_ne_pct (c : Char) (h : c ≠ '%') : lowerChar c ≠ '%' := by
  unfold lowerChar
  split <;> simp_all

theorem lowerChar_ne_usc (c : Char) (h : c ≠ '_') : lowerChar c ≠ '_' := by
  unfold lowerChar
  split <;> simp_all

theorem lowerChar_ne_bsl (c : Char) (h : c ≠ '\\') : lowerChar c ≠ '\\' := by
  unfold lowerChar
  split <;> simp_all

/-- Lower-casing preserves backslash-freeness. -/
theorem sqlLower_no_esc (s : String) (hbs : ∀ c ∈ s.data, c ≠ '\\') :
    ∀ c ∈ sqlLower s, c ≠ '\\' := by
  intro c hc
  obtain ⟨c0, hc0, rfl⟩ := List.mem_map.mp hc
  exact lowerChar_ne_bsl c0 (hbs c0 hc0)

/-- Lower-casing preserves wildcard- and escape-freeness. -/
theorem sqlLower_no_wild (s : String)
    (hw : ∀ c ∈ s.data, c ≠ '%' ∧ c ≠ '_' ∧ c ≠ '\\') :
    ∀ c ∈ sqlLower s, c ≠ '%' ∧ c ≠ '_' ∧ c ≠ '\\' := by
  intro c hc
  obtain ⟨c0, hc0, rfl⟩ := List.mem_map.mp hc
  exact ⟨lowerChar_ne_pct c0 (hw c0 hc0).1,
    lowerChar_ne_usc c0 (hw c0 hc0).2.1,
    lowerChar_ne_bsl c0 (hw c0 hc0).2.2⟩

/-- A string ILIKE-matches any backslash-free pattern equal to it up to
case. -/
theorem sqlIlike_self_no_esc (s pat : String) (h : sqlLower s = sqlLower pat)
    (hbs : ∀ c ∈ pat.data, c ≠ '\\') : sqlIlike s pat = true := by
  unfold sqlIlike
  rw [h]
  exact likeM_self_no_esc _ (sqlLower_no_esc pat hbs)

/-- ILIKE only depends on the pattern up to case. -/
theorem sqlIlike_pattern_congr (x p p' : String) (h : sqlLower p = sqlLower p') :
    sqlIlike x p = sqlIlike x p' := by
  unfold sqlIlike
  rw [h]

/-- On wildcard- and escape-free patterns, ILIKE is case-insensitive
equality. -/
theorem sqlIlike_exact (x pat : String)
    (hw : ∀ c ∈ pat.data, c ≠ '%' ∧ c ≠ '_' ∧ c ≠ '\\') :
    (sqlIlike x pat = true ↔ sqlLower x = sqlLower pat) :=
  likeM_exact (sqlLower pat) (sqlLower x) (sqlLower_no_wild pat hw)

/-! ### Lemmas about lookups -/

theorem get_director_by_id_eq_none (s : Store) (director_id : Nat)
    (hd : ∀ d ∈ s.directors, d.id ≠ director_id) :
    get_director_by_id s director_id = none := by
  unfold get_director_by_id
  rw [List.find?_eq_none]
  intro d hm
  simpa using hd d hm

theorem get_movie_eq_none (s : Store) (movie_id : Nat)
    (hm : ∀ m ∈ s.movies, m.id ≠ movie_id) :
    get_movie s movie_id = none := by
  unfold get_movie
  rw [List.find?_eq_none]
  intro m hmem
  simpa using hm m hmem

theorem get_movie_isSome (s : Store) (movie_id : Nat)
    (hm : ∃ m ∈ s.movies, m.id = movie_id) :
    ∃ m0, get_movie s movie_id = some m0 := by
  rw [← Option.isSome_iff_exists]
  unfold get_movie
  rw [List.find?_isSome]
  obtain ⟨m, hmem, hid⟩ := hm
  exact ⟨m, hmem, by simpa using hid⟩

/-! ### Concrete stores used as witnesses -/

/-- The seed data of `src/seedtest.py`: Nolan, Sci-Fi, Inception, one
review by Amanda. -/
def seededStore : Store :=
  ⟨[⟨1, "Christopher Nolan", some "1970-07-30"⟩],
   [⟨1, "Sci-Fi"⟩],
   [⟨1, "Inception", 2010,
     some "A thief who steals corporate secrets through dream-sharing.",
     none, 1⟩],
   [⟨1, "Amanda", 5, "Mind-bending classic!", 1⟩],
   [(1, 1)], 2, 2, 2, 2⟩

/-- Claim C2: `create_movie` with a director id that resolves to no
Director fails with the value error "Director not found" and leaves the
store unchanged: no Movie row and no genre association row is
persisted. -/
theorem create_movie_unknown_director_fails (s : Store) (title : String)
    (year : Int) (description : Option String) (director_id : Nat)
    (genre_ids : List Nat) (image_url : Option String)
    (hd : ∀ d ∈ s.directors, d.id ≠ director_id) :
    create_movie s title year description director_id genre_ids image_url
      = (.error "Director not found", s) := by
  have h := get_director_by_id_eq_none s director_id hd
  unfold create_movie
  rw [h]

theorem create_movie_unknown_director_fails_witness :
    (∀ d ∈ seededStore.directors, d.id ≠ 99) ∧
      create_movie seededStore "Tenet" 2020 none 99 [1] none
        = (.error "Director not found", seededStore) :=
  ⟨by decide,
   create_movie_unknown_director_fails seededStore "Tenet" 2020 none 99 [1]
     none (by decide)⟩

/-- Claim C3: `update_movie` on an existing movie with a director id that
resolves to no Director fails with the value error "Director not found"
and leaves the whole store — in particular the movie's fields and its
genre association rows — exactly as it was. -/
theorem update_movie_unknown_director_fails (s : Store) (movie_id : Nat)
    (title : String) (year : Int) (description : Option String)
    (director_id : Nat) (genre_ids : List Nat) (image_url : Option String)
    (hm : ∃ m ∈ s.movies, m.id = movie_id)
    (hd : ∀ d ∈ s.directors, d.id ≠ director_id) :
    update_movie s movie_id title year description director_id genre_ids
      image_url = (.error "Director not found", s) := by
  obtain ⟨m0, hm0⟩ := get_movie_isSome s movie_id hm
  have h := get_director_by_id_eq_none s director_id hd
  unfold update_movie
  rw [hm0, h]

theorem update_movie_unknown_director_fails_witness :
    (∃ m ∈ seededStore.movies, m.id = 1) ∧
      (∀ d ∈ seededStore.directors, d.id ≠ 99) ∧
      update_movie seededStore 1 "Inception 2" 2011 none 99 [1] none
        = (.error "Director not found", seededStore) :=
  ⟨by decide, by decide,
   update_movie_unknown_director_fails seededStore 1 "Inception 2" 2011 none
     99 [1] none (by decide) (by decide)⟩

/-- Claim C7: `update_movie` on an unknown movie id returns the absent
marker `none` (not an error) and leaves the entire store unchanged. -/
theorem update_movie_unknown_movie_noop (s : Store) (movie_id : Nat)
    (title : String) (year : Int) (description : Option String)
    (director_id : Nat) (genre_ids : List Nat) (image_url : Option String)
    (hm : ∀ m ∈ s.movies, m.id ≠ movie_id) :
    update_movie s movie_id title year description director_id genre_ids
      image_url = (.ok none, s) := by
  have h := get_movie_eq_none s movie_id hm
  unfold update_movie
  rw [h]

theorem update_movie_unknown_movie_noop_witness :
    (∀ m ∈ seededStore.movies, m.id ≠ 42) ∧
      update_movie seededStore 42 "Nothing" 1999 none 1 [1] none
        = (.ok none, seededStore) :=
  ⟨by decide,
   update_movie_unknown_movie_noop seededStore 42 "Nothing" 1999 none 1 [1]
     none (by decide)⟩

/-- Claim C4: deleting an existing movie returns true, removes that Movie
and every Review referring to it (and only those), and leaves the Director
and Genre tables untouched; a second delete of the same id in the
resulting state returns false and changes nothing. -/
theorem delete_movie_cascades (s : Store) (movie_id : Nat)
    (hm : ∃ m ∈ s.movies, m.id = movie_id) :
    ∃ s', delete_movie s movie_id = (true, s') ∧
      (∀ m ∈ s'.movies, m.id ≠ movie_id) ∧
      (∀ r ∈ s'.reviews, r.movie_id ≠ movie_id) ∧
      (∀ m ∈ s.movies, m.id ≠ movie_id → m ∈ s'.movies) ∧
      (∀ r ∈ s.reviews, r.movie_id ≠ movie_id → r ∈ s'.reviews) ∧
      s'.directors = s.directors ∧ s'.genres = s.genres ∧
      delete_movie s' movie_id = (false, s') := by
  obtain ⟨m0, hm0⟩ := get_movie_isSome s movie_id hm
  refine ⟨{ s with movies := s.movies.filter (fun m => m.id != movie_id),
                   reviews := s.reviews.filter (fun r => r.movie_id != movie_id),
                   movieGenres := s.movieGenres.filter (fun p => p.1 != movie_id) },
          ?_, ?_, ?_, ?_, ?_, rfl, rfl, ?_⟩
  · unfold delete_movie
    rw [hm0]
  · intro m hmem
    have h := (List.mem_filter.mp hmem).2
    simpa using h
  · intro r hmem
    have h := (List.mem_filter.mp hmem).2
    simpa using h
  · intro m hmem hne
    exact List.mem_filter.mpr ⟨hmem, by simpa using hne⟩
  · intro r hmem hne
    exact List.mem_filter.mpr ⟨hmem, by simpa using hne⟩
  · have hnone : get_movie
        { s with movies := s.movies.filter (fun m => m.id != movie_id),
                 reviews := s.reviews.filter (fun r => r.movie_id != movie_id),
                 movieGenres := s.movieGenres.filter (fun p => p.1 != movie_id) }
        movie_id = none := by
      unfold get_movie
      rw [List.find?_eq_none]
      intro m hmem
      have h := (List.mem_filter.mp hmem).2
      simpa using h
    unfold delete_movie
    rw [hnone]

theorem delete_movie_cascades_witness :
    (∃ m ∈ seededStore.movies, m.id = 1) ∧
      ∃ s', delete_movie seededStore 1 = (true, s') ∧
        (∀ m ∈ s'.movies, m.id ≠ 1) ∧
        (∀ r ∈ s'.reviews, r.movie_id ≠ 1) ∧
        (∀ m ∈ seededStore.movies, m.id ≠ 1 → m ∈ s'.movies) ∧
        (∀ r ∈ seededStore.reviews, r.movie_id ≠ 1 → r ∈ s'.reviews) ∧
        s'.directors = seededStore.directors ∧ s'.genres = seededStore.genres ∧
        delete_movie s' 1 = (false, s') :=
  ⟨by decide, delete_movie_cascades seededStore 1 (by decide)⟩

/-! ### Director resolution (C5) -/

/-- The name lookup only depends on the pattern up to case. -/
theorem get_director_by_name_congr (s : Store) (p p' : String)
    (h : sqlLower p = sqlLower p') :
    get_director_by_name s p = get_director_by_name s p' := by
  unfold get_director_by_name
  exact congrArg (fun f => List.find? f s.directors)
    (funext fun d => sqlIlike_pattern_congr d.name p p' h)

/-- Computation rule: resolution that finds a row changes nothing. -/
theorem gocd_eq_found (s : Store) (n : String) (d : Director)
    (hf : get_director_by_name s (pyStrip n) = some d) :
    get_or_create_director_by_name s n = (d, s) := by
  simp only [get_or_create_director_by_name, hf]

/-- Computation rule: resolution that misses the lookup appends a row. -/
theorem gocd_eq_created (s : Store) (n : String)
    (hf : get_director_by_name s (pyStrip n) = none) :
    get_or_create_director_by_name s n =
      (⟨s.nextDirectorId, pyStrip n, none⟩,
       { s with
           directors := s.directors ++ [⟨s.nextDirectorId, pyStrip n, none⟩],
           nextDirectorId := s.nextDirectorId + 1 }) := by
  simp only [get_or_create_director_by_name, hf]

/-- Claim C5 counterexample: director-name resolution is not idempotent
for names containing a backslash, PostgreSQL's default LIKE escape
character.  The name "a\b" (with a literal backslash) equals itself after
stripping and lower-casing, yet the second call's lookup pattern denotes
the literal string "ab", misses the stored row named "a\b", and inserts a
second Director with a different id. -/
theorem resolve_director_not_idempotent :
    sqlLower (pyStrip "a\\b") = sqlLower (pyStrip "a\\b") ∧
      (get_or_create_director_by_name
          (get_or_create_director_by_name emptyStore "a\\b").2 "a\\b").1.id
        ≠ (get_or_create_director_by_name emptyStore "a\\b").1.id ∧
      (get_or_create_director_by_name
          (get_or_create_director_by_name emptyStore "a\\b").2
          "a\\b").2.directors.length = 2 := by
  decide

/-- Claim C5 (amended): for director names whose stripped form contains no
backslash (the LIKE escape character), `get_or_create_director_by_name`
is idempotent up to surrounding whitespace and letter case: for every
state, a second call with a name equal up to stripping and case returns
the very same Director (same row, hence the same id) and leaves the store
exactly as after the first call — no new row is created. -/
theorem resolve_director_idempotent_no_esc (s : Store) (n n' : String)
    (hbs : ∀ c ∈ (pyStrip n).data, c ≠ '\\')
    (h : sqlLower (pyStrip n') = sqlLower (pyStrip n)) :
    get_or_create_director_by_name (get_or_create_director_by_name s n).2 n'
      = get_or_create_director_by_name s n := by
  rcases hfind : get_director_by_name s (pyStrip n) with _ | d
  · rw [gocd_eq_created s n hfind]
    refine gocd_eq_found _ n' _ ?_
    show get_director_by_name
        { s with
            directors := s.directors ++ [⟨s.nextDirectorId, pyStrip n, none⟩],
            nextDirectorId := s.nextDirectorId + 1 }
        (pyStrip n') = some ⟨s.nextDirectorId, pyStrip n, none⟩
    rw [get_director_by_name_congr _ _ _ h]
    unfold get_director_by_name at hfind ⊢
    rw [List.find?_append, hfind]
    simp [sqlIlike_self_no_esc (pyStrip n) (pyStrip n) rfl hbs]
  · rw [gocd_eq_found s n d hfind]
    refine gocd_eq_found _ n' _ ?_
    show get_director_by_name s (pyStrip n') = some d
    rw [get_director_by_name_congr _ _ _ h]
    exact hfind

theorem resolve_director_idempotent_no_esc_witness :
    (∀ c ∈ (pyStrip "Nolan").data, c ≠ '\\') ∧
      (sqlLower (pyStrip " nolan ") = sqlLower (pyStrip "Nolan")) ∧
      get_or_create_director_by_name
          (get_or_create_director_by_name emptyStore "Nolan").2 " nolan "
        = get_or_create_director_by_name emptyStore "Nolan" :=
  ⟨by decide, by decide,
   resolve_director_idempotent_no_esc emptyStore "Nolan" " nolan "
     (by decide) (by decide)⟩

/-! ### The director name lookup is LIKE-pattern based (C8) -/

/-- Claim C8 counterexample: the input of `get_director_by_name` is used
as a LIKE pattern, so the input "C%" returns the Director named
"Christopher Nolan" even though that stored name is not equal to the
input under case-insensitive comparison — the lookup is not an exact
case-insensitive match for inputs containing '%'. -/
theorem get_director_by_name_not_exact :
    get_director_by_name seededStore "C%"
        = some ⟨1, "Christopher Nolan", some "1970-07-30"⟩ ∧
      sqlLower "Christopher Nolan" ≠ sqlLower "C%" := by
  decide

/-- Claim C8 (amended): `get_director_by_name` matches the input as a
case-insensitive SQL LIKE pattern: '%' matches any sequence, '_' any
single character, and backslash escapes the following character.  For
inputs containing no '%', no '_' and no backslash, the lookup is exact
case-insensitive match: it returns a Director iff some stored name equals
the input up to case, and any returned Director is a stored row whose
name equals the input up to case. -/
theorem get_director_by_name_exact_no_wildcards (s : Store) (name : String)
    (hw : ∀ c ∈ name.data, c ≠ '%' ∧ c ≠ '_' ∧ c ≠ '\\') :
    ((get_director_by_name s name).isSome
        ↔ ∃ d ∈ s.directors, sqlLower d.name = sqlLower name) ∧
      ∀ d, get_director_by_name s name = some d →
        d ∈ s.directors ∧ sqlLower d.name = sqlLower name := by
  constructor
  · unfold get_director_by_name
    rw [List.find?_isSome]
    constructor
    · rintro ⟨d, hd, hp⟩
      exact ⟨d, hd, (sqlIlike_exact d.name name hw).mp hp⟩
    · rintro ⟨d, hd, hp⟩
      exact ⟨d, hd, (sqlIlike_exact d.name name hw).mpr hp⟩
  · intro d hd
    unfold get_director_by_name at hd
    refine ⟨List.mem_of_find?_eq_some hd, ?_⟩
    have hp := List.find?_some hd
    exact (sqlIlike_exact d.name name hw).mp (by simpa using hp)

theorem get_director_by_name_exact_no_wildcards_witness :
    (∀ c ∈ "CHRISTOPHER NOLAN".data, c ≠ '%' ∧ c ≠ '_' ∧ c ≠ '\\') ∧
      (((get_director_by_name seededStore "CHRISTOPHER NOLAN").isSome
          ↔ ∃ d ∈ seededStore.directors,
              sqlLower d.name = sqlLower "CHRISTOPHER NOLAN") ∧
        ∀ d, get_director_by_name seededStore "CHRISTOPHER NOLAN" = some d →
          d ∈ seededStore.directors ∧
            sqlLower d.name = sqlLower "CHRISTOPHER NOLAN") :=
  ⟨by decide,
   get_director_by_name_exact_no_wildcards seededStore "CHRISTOPHER NOLAN"
     (by decide)⟩

/-! ### Genre resolution (C6) -/

theorem get_director_by_id_isSome (s : Store) (director_id : Nat)
    (hd : ∃ d ∈ s.directors, d.id = director_id) :
    ∃ d0, get_director_by_id s director_id = some d0 := by
  rw [← Option.isSome_iff_exists]
  unfold get_director_by_id
  rw [List.find?_isSome]
  obtain ⟨d, hmem, hid⟩ := hd
  exact ⟨d, hmem, by simpa using hid⟩

theorem get_genres_by_ids_eq_filter (s : Store) (genre_ids : List Nat) :
    get_genres_by_ids s genre_ids
      = s.genres.filter (fun g => genre_ids.contains g.id) := by
  unfold get_genres_by_ids
  rcases genre_ids with _ | ⟨i, ids⟩
  · simp
  · rfl

/-- Claim C1: in a store containing the director, `create_movie` succeeds
and a subsequent `get_movie` on the returned id yields a Movie whose
title, year, description, director_id and image_url equal the inputs, and
whose associated genre-id set is exactly the subset of the requested
genre_ids that named an existing Genre at call time — unknown genre ids
are silently dropped, with no error. -/
theorem create_movie_then_get (s : Store) (hwf : s.WF) (title : String)
    (year : Int) (description : Option String) (director_id : Nat)
    (genre_ids : List Nat) (image_url : Option String)
    (hd : ∃ d ∈ s.directors, d.id = director_id) :
    ∃ m s',
      create_movie s title year description director_id genre_ids image_url
        = (.ok m, s') ∧
      get_movie s' m.id = some m ∧
      m.title = title ∧ m.year = year ∧ m.description = description ∧
      m.director_id = director_id ∧ m.image_url = image_url ∧
      ∀ gid, gid ∈ movieGenreIds s' m.id ↔
        (gid ∈ genre_ids ∧ ∃ g ∈ s.genres, g.id = gid) := by
  obtain ⟨d0, hd0⟩ := get_director_by_id_isSome s director_id hd
  refine ⟨⟨s.nextMovieId, title, year, description, image_url, director_id⟩,
    { s with
        movies := s.movies
          ++ [⟨s.nextMovieId, title, year, description, image_url, director_id⟩],
        movieGenres := s.movieGenres
          ++ (get_genres_by_ids s genre_ids).map (fun g => (s.nextMovieId, g.id)),
        nextMovieId := s.nextMovieId + 1 },
    ?_, ?_, rfl, rfl, rfl, rfl, rfl, ?_⟩
  · unfold create_movie
    rw [hd0]
  · unfold get_movie
    simp only [List.find?_append]
    have h1 : s.movies.find?
        (fun m0 => m0.id == s.nextMovieId) = none := by
      rw [List.find?_eq_none]
      intro m0 hmem
      have hlt := hwf.2.2.1 m0 hmem
      simp only [beq_iff_eq]
      omega
    rw [h1]
    simp
  · intro gid
    unfold movieGenreIds
    simp only [List.filter_append, List.map_append]
    have h1 : s.movieGenres.filter (fun p => p.1 == s.nextMovieId) = [] := by
      rw [List.filter_eq_nil_iff]
      intro p hmem
      have hlt := hwf.2.2.2.2 p hmem
      simp only [beq_iff_eq]
      omega
    have h2 : ((get_genres_by_ids s genre_ids).map
          (fun g => (s.nextMovieId, g.id))).filter
          (fun p => p.1 == s.nextMovieId)
        = (get_genres_by_ids s genre_ids).map (fun g => (s.nextMovieId, g.id)) := by
      rw [List.filter_eq_self]
      intro p hmem
      obtain ⟨g, _, rfl⟩ := List.mem_map.mp hmem
      simp
    rw [h1, h2, get_genres_by_ids_eq_filter]
    simp only [List.map_nil, List.nil_append, List.map_map, List.mem_map,
      Function.comp, List.mem_filter]
    constructor
    · rintro ⟨g, ⟨hg, hcont⟩, rfl⟩
      exact ⟨by simpa [List.elem_iff] using hcont, g, hg, rfl⟩
    · rintro ⟨hmem, g, hg, rfl⟩
      exact ⟨g, ⟨hg, by simpa [List.elem_iff] using hmem⟩, rfl⟩

theorem create_movie_then_get_witness :
    seededStore.WF ∧ (∃ d ∈ seededStore.directors, d.id = 1) ∧
      ∃ m s',
        create_movie seededStore "Interstellar" 2014 none 1 [1, 5] none
          = (.ok m, s') ∧
        get_movie s' m.id = some m ∧
        m.title = "Interstellar" ∧ m.year = 2014 ∧ m.description = none ∧
        m.director_id = 1 ∧ m.image_url = none ∧
        ∀ gid, gid ∈ movieGenreIds s' m.id ↔
          (gid ∈ [1, 5] ∧ ∃ g ∈ seededStore.genres, g.id = gid) :=
  ⟨by decide, by decide,
   create_movie_then_get seededStore (by decide) "Interstellar" 2014 none 1
     [1, 5] none (by decide)⟩

/-! ### Frame lemmas for the name-resolution operations -/

theorem gocd_movies (s : Store) (n : String) :
    (get_or_create_director_by_name s n).2.movies = s.movies := by
  simp only [get_or_create_director_by_name]
  split <;> rfl

theorem gocd_reviews (s : Store) (n : String) :
    (get_or_create_director_by_name s n).2.reviews = s.reviews := by
  simp only [get_or_create_director_by_name]
  split <;> rfl

theorem gocd_genres (s : Store) (n : String) :
    (get_or_create_director_by_name s n).2.genres = s.genres := by
  simp only [get_or_create_director_by_name]
  split <;> rfl

theorem gocg_movies (s : Store) (ns : List String) :
    (get_or_create_genres_by_names s ns).2.movies = s.movies := by
  induction ns generalizing s with
  | nil => rfl
  | cons n rest ih =>
    simp only [get_or_create_genres_by_names]
    split
    · exact ih s
    · split
      · exact ih s
      · exact ih _

theorem gocg_reviews (s : Store) (ns : List String) :
    (get_or_create_genres_by_names s ns).2.reviews = s.reviews := by
  induction ns generalizing s with
  | nil => rfl
  | cons n rest ih =>
    simp only [get_or_create_genres_by_names]
    split
    · exact ih s
    · split
      · exact ih s
      · exact ih _

/-- Every Review row refers to an existing Movie row. -/
def ReviewsValid (s : Store) : Prop :=
  ∀ r ∈ s.reviews, ∃ m ∈ s.movies, m.id = r.movie_id

/-- The states reachable from a fresh database through the program's
mutating operations.  The name-based wrappers are compositions of the
resolution steps and the id-based operation, so their results are
reachable through these constructors as well. -/
inductive Reachable : Store → Prop
  | empty : Reachable emptyStore
  | resolveDirector (s : Store) (n : String) :
      Reachable s → Reachable (get_or_create_director_by_name s n).2
  | resolveGenres (s : Store) (ns : List String) :
      Reachable s → Reachable (get_or_create_genres_by_names s ns).2
  | createMovie (s : Store) (t : String) (y : Int) (dsc : Option String)
      (did : Nat) (gids : List Nat) (u : Option String) :
      Reachable s → Reachable (create_movie s t y dsc did gids u).2
  | updateMovie (s : Store) (mid : Nat) (t : String) (y : Int)
      (dsc : Option String) (did : Nat) (gids : List Nat)
      (u : Option String) :
      Reachable s → Reachable (update_movie s mid t y dsc did gids u).2
  | deleteMovie (s : Store) (mid : Nat) :
      Reachable s → Reachable (delete_movie s mid).2
  | addReview (s : Store) (mid : Nat) (rat : Int) (c : String) :
      Reachable s → Reachable (add_review s mid rat c).2

/-- Claim C9: in every state reachable through the program's operations,
every Review's movie_id refers to an existing Movie — Review existence
implies a valid Movie, and no Review outlives its Movie.  Review insertion
against an absent movie id is rejected by the enforced foreign key
constraint, and movie deletion cascades over the movie's reviews. -/
theorem review_integrity (s : Store) (h : Reachable s) : ReviewsValid s := by
  induction h with
  | empty => intro r hr; exact absurd hr (by simp [emptyStore])
  | resolveDirector s n _ ih =>
    intro r hr
    rw [gocd_reviews] at hr
    obtain ⟨m, hm, hid⟩ := ih r hr
    exact ⟨m, by rw [gocd_movies]; exact hm, hid⟩
  | resolveGenres s ns _ ih =>
    intro r hr
    rw [gocg_reviews] at hr
    obtain ⟨m, hm, hid⟩ := ih r hr
    exact ⟨m, by rw [gocg_movies]; exact hm, hid⟩
  | createMovie s t y dsc did gids u _ ih =>
    rcases hd : get_director_by_id s did with _ | d
    · have hs : (create_movie s t y dsc did gids u).2 = s := by
        unfold create_movie
        rw [hd]
      rw [hs]
      exact ih
    · have hs : (create_movie s t y dsc did gids u).2
          = { s with
                movies := s.movies
                  ++ [⟨s.nextMovieId, t, y, dsc, u, did⟩],
                movieGenres := s.movieGenres
                  ++ (get_genres_by_ids s gids).map
                      (fun g => (s.nextMovieId, g.id)),
                nextMovieId := s.nextMovieId + 1 } := by
        unfold create_movie
        rw [hd]
      rw [hs]
      intro r hr
      obtain ⟨m, hm, hid⟩ := ih r hr
      exact ⟨m, List.mem_append_left _ hm, hid⟩
  | updateMovie s mid t y dsc did gids u _ ih =>
    rcases hmov : get_movie s mid with _ | m0
    · have hs : (update_movie s mid t y dsc did gids u).2 = s := by
        unfold update_movie
        rw [hmov]
      rw [hs]
      exact ih
    · rcases hd : get_director_by_id s did with _ | d
      · have hs : (update_movie s mid t y dsc did gids u).2 = s := by
          unfold update_movie
          rw [hmov, hd]
        rw [hs]
        exact ih
      · have hs : (update_movie s mid t y dsc did gids u).2
            = { s with
                  movies := s.movies.map
                    (fun m => if m.id == mid
                      then ⟨mid, t, y, dsc, u, did⟩ else m),
                  movieGenres :=
                    s.movieGenres.filter (fun p => p.1 != mid)
                      ++ (get_genres_by_ids s gids).map
                          (fun g => (mid, g.id)) } := by
          unfold update_movie
          rw [hmov, hd]
        rw [hs]
        intro r hr
        obtain ⟨m, hm, hid⟩ := ih r hr
        refine ⟨if m.id == mid then ⟨mid, t, y, dsc, u, did⟩ else m,
          List.mem_map_of_mem _ hm, ?_⟩
        by_cases hc : m.id = mid
        · rw [if_pos (by simpa using hc)]
          rw [← hid, hc]
        · rw [if_neg (by simpa using hc)]
          exact hid
  | deleteMovie s mid _ ih =>
    rcases hmov : get_movie s mid with _ | m0
    · have hs : (delete_movie s mid).2 = s := by
        unfold delete_movie
        rw [hmov]
      rw [hs]
      exact ih
    · have hs : (delete_movie s mid).2
          = { s with
                movies := s.movies.filter (fun m => m.id != mid),
                reviews := s.reviews.filter (fun r => r.movie_id != mid),
                movieGenres := s.movieGenres.filter (fun p => p.1 != mid) } := by
        unfold delete_movie
        rw [hmov]
      rw [hs]
      intro r hr
      have hr' := List.mem_filter.mp hr
      obtain ⟨m, hm, hid⟩ := ih r hr'.1
      have hne : r.movie_id ≠ mid := by simpa using hr'.2
      refine ⟨m, List.mem_filter.mpr ⟨hm, ?_⟩, hid⟩
      simp only [bne_iff_ne, ne_eq]
      rw [hid]
      exact hne
  | addReview s mid rat c _ ih =>
    by_cases hex : s.movies.any (fun m => m.id == mid) = true
    · have hs : (add_review s mid rat c).2
          = { s with
                reviews := s.reviews
                  ++ [⟨s.nextReviewId, "Anonymous", rat, c, mid⟩],
                nextReviewId := s.nextReviewId + 1 } := by
        unfold add_review
        rw [if_pos hex]
      rw [hs]
      intro r hr
      rcases List.mem_append.mp hr with hr | hr
      · obtain ⟨m, hm, hid⟩ := ih r hr
        exact ⟨m, hm, hid⟩
      · have hreq : r = ⟨s.nextReviewId, "Anonymous", rat, c, mid⟩ := by
          simpa using hr
        obtain ⟨m, hm, hmid⟩ := List.any_eq_true.mp hex
        refine ⟨m, hm, ?_⟩
        rw [hreq]
        simpa using hmid
    · have hs : (add_review s mid rat c).2 = s := by
        unfold add_review
        rw [if_neg hex]
      rw [hs]
      exact ih

/-- A concrete reachable store with one movie and one review. -/
def demoStore : Store :=
  (add_review
    (create_movie (get_or_create_director_by_name emptyStore "Nolan").2
      "Inception" 2010 none 1 [] none).2
    1 5 "Mind-bending classic!").2

theorem review_integrity_witness : ReviewsValid demoStore :=
  review_integrity demoStore
    (Reachable.addReview _ 1 5 "Mind-bending classic!"
      (Reachable.createMovie _ "Inception" 2010 none 1 [] none
        (Reachable.resolveDirector emptyStore "Nolan" Reachable.empty)))

end MovieCatalog
